import Mathlib

/-!
Shallow embedding of the `human-hand-detect` repository, centred on
`src/humanhanddetect/config_parser.py` (class `ConfigParser`, method
`_load_config` and its local helpers `_require` and `_resolve_path`) and on
`src/humanhanddetect/video_capture.py` (class `VideoCapture`).

Modelling conventions:
- JSON values as produced by Python's `json.load` are an inductive type
  `Json`; Python ints and floats are both `Json.num` with a rational payload
  (the numeric literals the program manipulates are exactly representable).
- The file system is a list of existing paths; `Path.is_file` / `Path.exists`
  become list membership.
- Each `raise` site of `_load_config` becomes an `Except.error` carrying a
  `ConfigError` constructor; the six constructors correspond to the six
  distinct failure classes (distinguished in the Python source by exception
  class and message text).
- Python `float(x)` / `int(x)` coercions become `coerceFloat` / `coerceInt`;
  string arguments are parsed as plain decimal literals (exotic formats such
  as exponents, inf/nan or underscores are not modelled; no theorem below
  depends on them).
- `pathlib` resolution is modelled lexically on POSIX paths: an absolute path
  starts with "/", `(base_dir / p).resolve()` is segment-wise concatenation
  with "."/".." normalisation, without symlinks (the base directory is taken
  to be absolute).
-/

namespace HumanHandDetect

/-- A JSON value as returned by Python's `json.load`: `None`, `bool`, a number
(int or float, both rational here), `str`, a list, or an object (dict),
the latter kept as the list of key/value pairs in document order. -/
inductive Json where
  | null : Json
  | bool (b : Bool) : Json
  | num (q : ℚ) : Json
  | str (s : String) : Json
  | arr (elems : List Json) : Json
  | obj (fields : List (String × Json)) : Json
deriving Repr

/-- The failure classes of configuration loading, one constructor per class
of `raise` in `config_parser.py` (distinguished there by exception class and
message): config file missing, invalid JSON, required key absent, wrong value
type/shape (carrying the key the message names), resolved path nonexistent
(carrying key and resolved path), numeric field outside [0,1] (carrying field
name and offending value). -/
inductive ConfigError where
  | notFound (path : String) : ConfigError
  | parseError (msg : String) : ConfigError
  | missingKey (key : String) : ConfigError
  | typeError (key : String) : ConfigError
  | pathNotFound (key : String) (path : String) : ConfigError
  | rangeError (field : String) (value : ℚ) : ConfigError
deriving Repr, DecidableEq

/-- Python dict lookup on the pair list produced by `json.load`: the last
binding of a duplicated key wins, as in Python's JSON decoding. -/
def jsonLookup (raw : List (String × Json)) (key : String) : Option Json :=
  raw.foldl (fun acc kv => if kv.1 = key then some kv.2 else acc) none

/-- `raw.get(key, default)` of `_load_config`. -/
def getD (raw : List (String × Json)) (key : String) (dflt : Json) : Json :=
  (jsonLookup raw key).getD dflt

/-- The local helper `_require` of `_load_config`: a missing key raises
`ValueError(f"Missing required configuration key: '{key}'")`. -/
def requireKey (raw : List (String × Json)) (key : String) :
    Except ConfigError Json :=
  match jsonLookup raw key with
  | some v => Except.ok v
  | none => Except.error (ConfigError.missingKey key)

/-- Split a character list at every occurrence of `c`, keeping empty
segments, as `str.split` / `String.splitOn` do. -/
def splitOnChar (c : Char) : List Char → List (List Char)
  | [] => [[]]
  | d :: rest =>
    match splitOnChar c rest with
    | [] => [[]]
    | seg :: segs => if d = c then [] :: seg :: segs else (d :: seg) :: segs

/-- Strip leading and trailing whitespace, as Python string coercion does. -/
def trimChars (cs : List Char) : List Char :=
  ((cs.dropWhile Char.isWhitespace).reverse.dropWhile Char.isWhitespace).reverse

/-- The numeric value of a digit string (0 for the empty string). -/
def digitsVal (cs : List Char) : Nat :=
  cs.foldl (fun n c => 10 * n + (c.toNat - 48)) 0

/-- A nonempty all-digit string parsed as a natural number; `none`
otherwise. -/
def digitsToNat (cs : List Char) : Option Nat :=
  if cs ≠ [] ∧ cs.all Char.isDigit then some (digitsVal cs) else none

/-- Python `int(s)` on a string: optional surrounding whitespace, one
optional sign, then decimal digits only (so `int("640.9")` and `int("a")`
fail). -/
def parseIntStr (s : String) : Option Int :=
  let t := trimChars s.data
  match t with
  | '+' :: r => (digitsToNat r).map (fun n => (n : Int))
  | '-' :: r => (digitsToNat r).map (fun n => -(n : Int))
  | _ => (digitsToNat t).map (fun n => (n : Int))

/-- An unsigned decimal float literal: digits with an optional fractional
part (at least one digit overall). -/
def parseUnsignedFloat (cs : List Char) : Option ℚ :=
  match splitOnChar '.' cs with
  | [a] => (digitsToNat a).map (fun n => (n : ℚ))
  | [a, b] =>
    if (a ≠ [] ∨ b ≠ []) ∧ a.all Char.isDigit ∧ b.all Char.isDigit then
      some ((digitsVal a : ℚ) + (digitsVal b : ℚ) / ((10 : ℚ) ^ b.length))
    else none
  | _ => none

/-- Python `float(s)` on a string: optional whitespace, one optional sign,
then a decimal literal with an optional fractional part. -/
def parseFloatStr (s : String) : Option ℚ :=
  let t := trimChars s.data
  match t with
  | '+' :: r => parseUnsignedFloat r
  | '-' :: r => (parseUnsignedFloat r).map (fun q => -q)
  | _ => parseUnsignedFloat t

/-- Truncation toward zero, the behaviour of Python `int()` applied to a
float: `int(640.9) = 640`, `int(-0.2) = 0`. -/
def ratTrunc (q : ℚ) : Int :=
  Int.tdiv q.num (q.den : Int)

/-- Python `float(x)` on a JSON value: numbers pass through, booleans become
0/1, strings are parsed as decimal literals, everything else (None, lists,
dicts) raises, i.e. yields `none`. -/
def coerceFloat : Json → Option ℚ
  | Json.num q => some q
  | Json.bool b => some (if b then 1 else 0)
  | Json.str s => parseFloatStr s
  | _ => none

/-- Python `int(x)` on a JSON value: numbers truncate toward zero, booleans
become 0/1, strings must be integer literals, everything else raises. -/
def coerceInt : Json → Option Int
  | Json.num q => some (ratTrunc q)
  | Json.bool b => some (if b then 1 else 0)
  | Json.str s => parseIntStr s
  | _ => none

/-- POSIX path split into its non-empty segments. -/
def splitSegs (p : String) : List String :=
  ((splitOnChar '/' p.data).map (fun cs => String.mk cs)).filter
    (fun seg => seg ≠ "")

/-- Lexical "."/".." normalisation performed by `Path.resolve()` (symlinks
not modelled). -/
def normSegs (segs : List String) : List String :=
  segs.foldl
    (fun acc seg =>
      if seg = "." then acc
      else if seg = ".." then acc.dropLast
      else acc ++ [seg])
    []

/-- Interleave "/" between segments (each given as a character list). -/
def joinCL : List (List Char) → List Char
  | [] => []
  | [cs] => cs
  | cs :: rest => cs ++ '/' :: joinCL rest

/-- `(base_dir / path).resolve()` for a relative `path`, with `base_dir`
absolute: concatenate the segments and normalise. -/
def joinResolve (baseDir rel : String) : String :=
  String.mk
    ('/' :: joinCL ((normSegs (splitSegs baseDir ++ splitSegs rel)).map
      String.data))

/-- `Path(p).is_absolute()` on POSIX. -/
def isAbsolute (p : String) : Bool :=
  match p.data with
  | '/' :: _ => true
  | _ => false

/-- `Path(config_path).parent`: everything before the last "/" ("." when
there is no "/", "/" when the path is directly under the root). -/
def parentDir (p : String) : String :=
  let s := String.mk (joinCL (splitOnChar '/' p.data).dropLast)
  if s = "" then (if isAbsolute p then "/" else ".") else s

/-- The path computation of `_resolve_path`: `Path(path_value)`, joined onto
the config directory and resolved when relative, used as-is when absolute. -/
def resolvedPathOf (baseDir s : String) : String :=
  if isAbsolute s then s else joinResolve baseDir s

/-- The local helper `_resolve_path` of `_load_config`: the value must be a
string (else the `TypeError`-class failure naming the key); a relative value
is joined onto the config file's directory and resolved, an absolute value is
used as-is; the result must exist on disk (else `PathNotFoundError` naming
key and resolved path). -/
def resolvePath (fs : List String) (baseDir : String) (v : Json) (key : String) :
    Except ConfigError String :=
  match v with
  | Json.str s =>
    let path := resolvedPathOf baseDir s
    if fs.contains path then Except.ok path
    else Except.error (ConfigError.pathNotFound key path)
  | _ => Except.error (ConfigError.typeError key)

/-- `_resolve_path(_require(key), key)`, the per-key validation applied to
each of the five required model-path fields. -/
def checkPathField (fs : List String) (baseDir : String)
    (raw : List (String × Json)) (key : String) : Except ConfigError String :=
  match requireKey raw key with
  | Except.error e => Except.error e
  | Except.ok v => resolvePath fs baseDir v key

/-- `_DEFAULT_YOLO_THRESHOLD` of `ConfigParser`. -/
def DEFAULT_YOLO_THRESHOLD : ℚ := mkRat 1 2

/-- `_DEFAULT_HAND_DETECTION_THRESHOLD` of `ConfigParser`. -/
def DEFAULT_HAND_DETECTION_THRESHOLD : ℚ := mkRat 1 2

/-- `_DEFAULT_HANDS_NMS_THRESHOLD` of `ConfigParser`. -/
def DEFAULT_HANDS_NMS_THRESHOLD : ℚ := mkRat 3 10

/-- `float(raw.get(key, default))` as an `Except`: coercion failure is the
`TypeError`-class failure naming the key. -/
def coerceFloatE (v : Json) (key : String) : Except ConfigError ℚ :=
  match coerceFloat v with
  | some q => Except.ok q
  | none => Except.error (ConfigError.typeError key)

/-- One iteration of the threshold sanity loop of `_load_config`:
`if not (0.0 <= value <= 1.0): raise ValueError(...)`. -/
def checkRange (name : String) (value : ℚ) : Except ConfigError Unit :=
  if 0 ≤ value ∧ value ≤ 1 then Except.ok ()
  else Except.error (ConfigError.rangeError name value)

/-- The `yolo_input_size` shape and element checks of `_load_config`: the
value must be a two-element JSON list, and both elements must be
`int()`-coercible; the result is the (width, height) pair. -/
def checkInputSize (v : Json) : Except ConfigError (Int × Int) :=
  match v with
  | Json.arr [a, b] =>
    match coerceInt a, coerceInt b with
    | some w, some h => Except.ok (w, h)
    | _, _ => Except.error (ConfigError.typeError "yolo_input_size")
  | _ => Except.error (ConfigError.typeError "yolo_input_size")

/-- The validated, immutable Configuration record `_load_config` populates
(the twelve `ConfigParser` properties). -/
structure Configuration where
  yolo_onnx_path : String
  yolo_threshold : ℚ
  yolo_input_size : Int × Int
  video_source : String
  video_fps : Int
  classifier_model_path : String
  embedder_model_path : String
  hand_landmark_model_path : String
  hand_detection_model_path : String
  hand_detection_threshold : ℚ
  maximum_hands : Int
  hands_nms_threshold : ℚ
deriving Repr, DecidableEq

/-- The validation body of `ConfigParser._load_config` after the JSON
document has been decoded into `raw`: every nested `match` mirrors, in source
order, one fallible step (a `raise` site) of the Python method — the five
required model-path fields first, then the three thresholds (coercion for all
three, then the range loop), then `yolo_input_size`, `video_source`,
`video_fps` and `maximum_hands`. -/
def loadConfig (fs : List String) (baseDir : String)
    (raw : List (String × Json)) : Except ConfigError Configuration :=
  match checkPathField fs baseDir raw "yolo_onnx_path" with
  | Except.error e => Except.error e
  | Except.ok yoloOnnx =>
  match checkPathField fs baseDir raw "classifier_model_path" with
  | Except.error e => Except.error e
  | Except.ok classifier =>
  match checkPathField fs baseDir raw "embedder_model_path" with
  | Except.error e => Except.error e
  | Except.ok embedder =>
  match checkPathField fs baseDir raw "hand_landmark_model_path" with
  | Except.error e => Except.error e
  | Except.ok handLandmark =>
  match checkPathField fs baseDir raw "hand_detection_model_path" with
  | Except.error e => Except.error e
  | Except.ok handDetection =>
  match coerceFloatE (getD raw "yolo_threshold" (Json.num DEFAULT_YOLO_THRESHOLD))
      "yolo_threshold" with
  | Except.error e => Except.error e
  | Except.ok yoloThr =>
  match coerceFloatE
      (getD raw "hand_detection_threshold"
        (Json.num DEFAULT_HAND_DETECTION_THRESHOLD))
      "hand_detection_threshold" with
  | Except.error e => Except.error e
  | Except.ok handDetThr =>
  match coerceFloatE
      (getD raw "hands_nms_threshold" (Json.num DEFAULT_HANDS_NMS_THRESHOLD))
      "hands_nms_threshold" with
  | Except.error e => Except.error e
  | Except.ok handsNmsThr =>
  match checkRange "yolo_threshold" yoloThr with
  | Except.error e => Except.error e
  | Except.ok _ =>
  match checkRange "hand_detection_threshold" handDetThr with
  | Except.error e => Except.error e
  | Except.ok _ =>
  match checkRange "hands_nms_threshold" handsNmsThr with
  | Except.error e => Except.error e
  | Except.ok _ =>
  match requireKey raw "yolo_input_size" with
  | Except.error e => Except.error e
  | Except.ok sizeRaw =>
  match checkInputSize sizeRaw with
  | Except.error e => Except.error e
  | Except.ok size =>
  match requireKey raw "video_source" with
  | Except.error e => Except.error e
  | Except.ok videoSourceRaw =>
  match videoSourceRaw with
  | Json.str videoSource =>
    (match requireKey raw "video_fps" with
    | Except.error e => Except.error e
    | Except.ok videoFpsRaw =>
    match coerceInt videoFpsRaw with
    | none => Except.error (ConfigError.typeError "video_fps")
    | some videoFps =>
    match requireKey raw "maximum_hands" with
    | Except.error e => Except.error e
    | Except.ok maxHandsRaw =>
    match coerceInt maxHandsRaw with
    | none => Except.error (ConfigError.typeError "maximum_hands")
    | some maximumHands =>
      Except.ok
        { yolo_onnx_path := yoloOnnx
          yolo_threshold := yoloThr
          yolo_input_size := size
          video_source := videoSource
          video_fps := videoFps
          classifier_model_path := classifier
          embedder_model_path := embedder
          hand_landmark_model_path := handLandmark
          hand_detection_model_path := handDetection
          hand_detection_threshold := handDetThr
          maximum_hands := maximumHands
          hands_nms_threshold := handsNmsThr })
  | _ => Except.error (ConfigError.typeError "video_source")

/-- The outcome of `json.load` on the config file's bytes: either a decode
failure (Python `JSONDecodeError`, re-raised by `_load_config` as the
`ParseError`-class failure) or the decoded top-level object. -/
inductive ParseOutcome where
  | invalid (msg : String) : ParseOutcome
  | parsed (raw : List (String × Json)) : ParseOutcome

/-- The whole of `ConfigParser._load_config` as seen by the caller of
`ConfigParser(config_path)`: the `is_file` existence check, then JSON
decoding, then the validation body with the config file's directory as path
base. -/
def load (fs : List String) (configPath : String) (parsed : ParseOutcome) :
    Except ConfigError Configuration :=
  if fs.contains configPath then
    match parsed with
    | ParseOutcome.invalid msg => Except.error (ConfigError.parseError msg)
    | ParseOutcome.parsed raw => loadConfig fs (parentDir configPath) raw
  else
    Except.error (ConfigError.notFound configPath)

/-- The five required model-path keys in the order `_load_config` validates
them. -/
def pathKeys : List String :=
  ["yolo_onnx_path", "classifier_model_path", "embedder_model_path",
   "hand_landmark_model_path", "hand_detection_model_path"]

/-- First error of a list of check results. -/
def firstErr : List (Except ConfigError String) → Option ConfigError
  | [] => none
  | Except.error e :: _ => some e
  | Except.ok _ :: rest => firstErr rest

/-- The first failing required-path check in the fixed key order, if any. -/
def firstPathError (fs : List String) (baseDir : String)
    (raw : List (String × Json)) : Option ConfigError :=
  firstErr (pathKeys.map (checkPathField fs baseDir raw))

/-- Errors that can only arise while validating one of the five required
model-path fields. -/
def isPathStageError : ConfigError → Bool
  | ConfigError.missingKey k => pathKeys.contains k
  | ConfigError.typeError k => pathKeys.contains k
  | ConfigError.pathNotFound _ _ => true
  | _ => false

/-- The coerced-or-default value of one optional threshold field:
`float(raw.get(key, default))`, `none` when the coercion fails. -/
def thresholdVal (raw : List (String × Json)) (key : String) (dflt : ℚ) :
    Option ℚ :=
  coerceFloat (getD raw key (Json.num dflt))

/-- The state of the external `cv2.VideoCapture` handle held by the wrapper:
whether the device opened, and whether `release()` has been called. -/
structure Cv2Cap where
  opened : Bool
  released : Bool
deriving Repr, DecidableEq

/-- Modelled from the spec: `cv2.VideoCapture.release()` is the external
"releases the underlying device/file handle" operation; releasing an
already-released handle is a no-op and never raises. -/
def cv2Release (c : Cv2Cap) : Cv2Cap :=
  { c with released := true }

/-- The wrapper state of `video_capture.VideoCapture`: `_cap` is `None` until
`open()` is called (also after a failed `open()`, which still assigns
`self._cap`). -/
structure VideoCapture where
  cap : Option Cv2Cap
deriving Repr, DecidableEq

/-- `VideoCapture.__init__`: `self._cap = None`. -/
def VideoCapture.initState : VideoCapture :=
  { cap := none }

/-- `VideoCapture.open`: constructs the cv2 capture (recording whether the
device opened, an external outcome passed in as `deviceOpens`) and returns
the success boolean; on failure `_cap` stays assigned. -/
def VideoCapture.openCap (_v : VideoCapture) (deviceOpens : Bool) :
    VideoCapture × Bool :=
  ({ cap := some { opened := deviceOpens, released := false } }, deviceOpens)

/-- `VideoCapture.close`: `if self._cap is not None: self._cap.release()`;
total (no `raise` on any path). -/
def VideoCapture.close (v : VideoCapture) : VideoCapture :=
  match v.cap with
  | none => v
  | some c => { cap := some (cv2Release c) }

/-- A Prop recording that the threshold stage of `_load_config` passes: all
three optional thresholds coerce and lie in [0,1]. -/
def thresholdStageOk (raw : List (String × Json)) : Prop :=
  ∃ t1 t2 t3,
    thresholdVal raw "yolo_threshold" DEFAULT_YOLO_THRESHOLD = some t1 ∧
      (0 ≤ t1 ∧ t1 ≤ 1) ∧
    thresholdVal raw "hand_detection_threshold"
        DEFAULT_HAND_DETECTION_THRESHOLD = some t2 ∧
      (0 ≤ t2 ∧ t2 ≤ 1) ∧
    thresholdVal raw "hands_nms_threshold" DEFAULT_HANDS_NMS_THRESHOLD =
        some t3 ∧
      (0 ≤ t3 ∧ t3 ≤ 1)

/-- Example file system: a config file under `/a` and five existing model
files. -/
def fs0 : List String :=
  ["/a/cfg.json", "/a/m1", "/a/m2", "/a/m3", "/a/m4", "/a/m5"]

/-- Example raw config: all required keys valid, every optional key
omitted. -/
def raw0 : List (String × Json) :=
  [("yolo_onnx_path", Json.str "m1"),
   ("classifier_model_path", Json.str "m2"),
   ("embedder_model_path", Json.str "/a/m3"),
   ("hand_landmark_model_path", Json.str "m4"),
   ("hand_detection_model_path", Json.str "m5"),
   ("yolo_input_size", Json.arr [Json.num 640, Json.num 480]),
   ("video_source", Json.str "0"),
   ("video_fps", Json.num 30),
   ("maximum_hands", Json.num 2)]

/-- The Configuration record `raw0` loads to. -/
def cfg0 : Configuration :=
  { yolo_onnx_path := "/a/m1"
    yolo_threshold := DEFAULT_YOLO_THRESHOLD
    yolo_input_size := (640, 480)
    video_source := "0"
    video_fps := 30
    classifier_model_path := "/a/m2"
    embedder_model_path := "/a/m3"
    hand_landmark_model_path := "/a/m4"
    hand_detection_model_path := "/a/m5"
    hand_detection_threshold := DEFAULT_HAND_DETECTION_THRESHOLD
    maximum_hands := 2
    hands_nms_threshold := DEFAULT_HANDS_NMS_THRESHOLD }

/-- Like `raw0` but with `classifier_model_path` removed. -/
def rawNoClassifier : List (String × Json) :=
  [("yolo_onnx_path", Json.str "m1"),
   ("embedder_model_path", Json.str "/a/m3"),
   ("hand_landmark_model_path", Json.str "m4"),
   ("hand_detection_model_path", Json.str "m5"),
   ("yolo_input_size", Json.arr [Json.num 640, Json.num 480]),
   ("video_source", Json.str "0"),
   ("video_fps", Json.num 30),
   ("maximum_hands", Json.num 2)]

/-- Like `raw0` but with an out-of-range `yolo_threshold` of 2. -/
def rawBigThreshold : List (String × Json) :=
  raw0 ++ [("yolo_threshold", Json.num 2)]

/-- Like `raw0` but with a one-element `yolo_input_size`. -/
def rawShortSize : List (String × Json) :=
  raw0 ++ [("yolo_input_size", Json.arr [Json.num 640])]

/-- Like `raw0` but with a non-integer-valued `yolo_input_size`. -/
def rawStrSize : List (String × Json) :=
  raw0 ++ [("yolo_input_size", Json.arr [Json.str "a", Json.str "b"])]

/-- Like `raw0` but with a fractional `yolo_input_size` of [640.9, 480.2]. -/
def rawFracSize : List (String × Json) :=
  raw0 ++
    [("yolo_input_size",
      Json.arr [Json.num (mkRat 6409 10), Json.num (mkRat 2401 5)])]

/-- A file system holding only the config file and one model file. -/
def fs1 : List String :=
  ["/a/cfg.json", "/a/m1"]

/-- Like `raw0` but pointing `yolo_onnx_path` at a file that does not
exist. -/
def rawBadPath : List (String × Json) :=
  raw0 ++ [("yolo_onnx_path", Json.str "m9")]

/-- `_require` succeeds exactly on present keys, returning the stored
value. -/
theorem requireKey_ok_iff (raw : List (String × Json)) (k : String) (v : Json) :
    requireKey raw k = Except.ok v ↔ jsonLookup raw k = some v := by
  unfold requireKey
  cases jsonLookup raw k <;> simp

/-- `_require` fails exactly on absent keys, with the `MissingKeyError`-class
failure naming the key. -/
theorem requireKey_err_iff (raw : List (String × Json)) (k : String)
    (e : ConfigError) :
    requireKey raw k = Except.error e ↔
      (jsonLookup raw k = none ∧ e = ConfigError.missingKey k) := by
  unfold requireKey
  cases jsonLookup raw k <;> simp
  exact eq_comm

/-- The `float(...)` step succeeds exactly when the Python coercion does. -/
theorem coerceFloatE_ok_iff (v : Json) (k : String) (q : ℚ) :
    coerceFloatE v k = Except.ok q ↔ coerceFloat v = some q := by
  unfold coerceFloatE
  cases coerceFloat v <;> simp

/-- The `float(...)` step fails exactly when the Python coercion does, with
the `TypeError`-class failure naming the key. -/
theorem coerceFloatE_err_iff (v : Json) (k : String) (e : ConfigError) :
    coerceFloatE v k = Except.error e ↔
      (coerceFloat v = none ∧ e = ConfigError.typeError k) := by
  unfold coerceFloatE
  cases coerceFloat v <;> simp
  exact eq_comm

/-- One range-loop iteration succeeds exactly on values in [0,1]. -/
theorem checkRange_ok_iff (n : String) (v : ℚ) (u : Unit) :
    checkRange n v = Except.ok u ↔ (0 ≤ v ∧ v ≤ 1) := by
  unfold checkRange
  split <;> simp_all

/-- One range-loop iteration fails exactly on values outside [0,1], with the
`RangeError`-class failure naming the field and carrying the value. -/
theorem checkRange_err_iff (n : String) (v : ℚ) (e : ConfigError) :
    checkRange n v = Except.error e ↔
      (¬ (0 ≤ v ∧ v ≤ 1) ∧ e = ConfigError.rangeError n v) := by
  unfold checkRange
  split <;> simp_all
  exact eq_comm

/-- Any failure of the `yolo_input_size` shape/element checks is the
`TypeError`-class failure naming `yolo_input_size`. -/
theorem checkInputSize_err_iff (v : Json) (e : ConfigError) :
    checkInputSize v = Except.error e ↔
      ((∀ wh, checkInputSize v ≠ Except.ok wh) ∧
        e = ConfigError.typeError "yolo_input_size") := by
  unfold checkInputSize
  repeat' split
  all_goals simp_all
  all_goals exact eq_comm

/-- Failure analysis of one required model-path field: missing key, non-string
value, or nonexistent resolved path (the latter carrying the key and the
resolved path). -/
theorem checkPathField_err_iff (fs : List String) (baseDir : String)
    (raw : List (String × Json)) (key : String) (e : ConfigError) :
    checkPathField fs baseDir raw key = Except.error e ↔
      ((jsonLookup raw key = none ∧ e = ConfigError.missingKey key) ∨
       (∃ v, jsonLookup raw key = some v ∧ (∀ s, v ≠ Json.str s) ∧
         e = ConfigError.typeError key) ∨
       (∃ s, jsonLookup raw key = some (Json.str s) ∧
         fs.contains (resolvedPathOf baseDir s) = false ∧
         e = ConfigError.pathNotFound key (resolvedPathOf baseDir s))) := by
  unfold checkPathField requireKey resolvePath
  cases hl : jsonLookup raw key with
  | none => simp [eq_comm]
  | some v =>
    cases v <;> simp <;> try exact eq_comm
    split <;> simp_all [eq_comm]

/-- Success analysis of one required model-path field: the key holds a string
whose resolved path exists, and that resolved path is the result. -/
theorem checkPathField_ok_char (fs : List String) (baseDir : String)
    (raw : List (String × Json)) (key : String) (p : String)
    (h : checkPathField fs baseDir raw key = Except.ok p) :
    ∃ s, jsonLookup raw key = some (Json.str s) ∧
      p = resolvedPathOf baseDir s ∧ fs.contains p = true := by
  unfold checkPathField requireKey resolvePath at h
  cases hl : jsonLookup raw key with
  | none => rw [hl] at h; exact Except.noConfusion h
  | some v =>
    rw [hl] at h
    cases v <;> try exact Except.noConfusion h
    simp only [] at h
    split at h
    · injection h with h
      subst h
      exact ⟨_, rfl, rfl, by assumption⟩
    · exact Except.noConfusion h

/-- Everything a successful `_load_config` run guarantees about the returned
record: each field comes from its own validated key, and the thresholds lie
in [0,1]. -/
theorem loadConfig_ok_fields (fs : List String) (baseDir : String)
    (raw : List (String × Json)) (c : Configuration)
    (h : loadConfig fs baseDir raw = Except.ok c) :
    checkPathField fs baseDir raw "yolo_onnx_path" =
        Except.ok c.yolo_onnx_path ∧
    checkPathField fs baseDir raw "classifier_model_path" =
        Except.ok c.classifier_model_path ∧
    checkPathField fs baseDir raw "embedder_model_path" =
        Except.ok c.embedder_model_path ∧
    checkPathField fs baseDir raw "hand_landmark_model_path" =
        Except.ok c.hand_landmark_model_path ∧
    checkPathField fs baseDir raw "hand_detection_model_path" =
        Except.ok c.hand_detection_model_path ∧
    thresholdVal raw "yolo_threshold" DEFAULT_YOLO_THRESHOLD =
        some c.yolo_threshold ∧
    thresholdVal raw "hand_detection_threshold"
        DEFAULT_HAND_DETECTION_THRESHOLD = some c.hand_detection_threshold ∧
    thresholdVal raw "hands_nms_threshold" DEFAULT_HANDS_NMS_THRESHOLD =
        some c.hands_nms_threshold ∧
    (0 ≤ c.yolo_threshold ∧ c.yolo_threshold ≤ 1) ∧
    (0 ≤ c.hand_detection_threshold ∧ c.hand_detection_threshold ≤ 1) ∧
    (0 ≤ c.hands_nms_threshold ∧ c.hands_nms_threshold ≤ 1) ∧
    (∃ sizeRaw, jsonLookup raw "yolo_input_size" = some sizeRaw ∧
      checkInputSize sizeRaw = Except.ok c.yolo_input_size) ∧
    jsonLookup raw "video_source" = some (Json.str c.video_source) ∧
    (∃ v, jsonLookup raw "video_fps" = some v ∧
      coerceInt v = some c.video_fps) ∧
    (∃ v, jsonLookup raw "maximum_hands" = some v ∧
      coerceInt v = some c.maximum_hands) := by
  unfold loadConfig at h
  repeat' split at h
  all_goals try exact Except.noConfusion h
  injection h with h
  subst h
  simp_all [requireKey_ok_iff, coerceFloatE_ok_iff, checkRange_ok_iff,
    thresholdVal]


theorem firstPathError_some_load (fs : List String) (baseDir : String)
    (raw : List (String × Json)) (e : ConfigError)
    (h : firstPathError fs baseDir raw = some e) :
    loadConfig fs baseDir raw = Except.error e := by
  unfold firstPathError pathKeys at h
  simp only [List.map_cons, List.map_nil] at h
  unfold loadConfig
  repeat' split
  all_goals simp_all [firstErr]

theorem firstPathError_none_ex (fs : List String) (baseDir : String)
    (raw : List (String × Json))
    (h : firstPathError fs baseDir raw = none) :
    ∃ p1 p2 p3 p4 p5,
      checkPathField fs baseDir raw "yolo_onnx_path" = Except.ok p1 ∧
      checkPathField fs baseDir raw "classifier_model_path" = Except.ok p2 ∧
      checkPathField fs baseDir raw "embedder_model_path" = Except.ok p3 ∧
      checkPathField fs baseDir raw "hand_landmark_model_path" = Except.ok p4 ∧
      checkPathField fs baseDir raw "hand_detection_model_path" = Except.ok p5 := by
  unfold firstPathError pathKeys at h
  simp only [List.map_cons, List.map_nil] at h
  cases h1 : checkPathField fs baseDir raw "yolo_onnx_path" with
  | error e => rw [h1] at h; simp [firstErr] at h
  | ok p1 =>
  rw [h1] at h; simp only [firstErr] at h
  cases h2 : checkPathField fs baseDir raw "classifier_model_path" with
  | error e => rw [h2] at h; simp [firstErr] at h
  | ok p2 =>
  rw [h2] at h; simp only [firstErr] at h
  cases h3 : checkPathField fs baseDir raw "embedder_model_path" with
  | error e => rw [h3] at h; simp [firstErr] at h
  | ok p3 =>
  rw [h3] at h; simp only [firstErr] at h
  cases h4 : checkPathField fs baseDir raw "hand_landmark_model_path" with
  | error e => rw [h4] at h; simp [firstErr] at h
  | ok p4 =>
  rw [h4] at h; simp only [firstErr] at h
  cases h5 : checkPathField fs baseDir raw "hand_detection_model_path" with
  | error e => rw [h5] at h; simp [firstErr] at h
  | ok p5 =>
  exact ⟨p1, p2, p3, p4, p5, rfl, rfl, rfl, rfl, rfl⟩

theorem loadConfig_rangeError_iff (fs : List String) (baseDir : String)
    (raw : List (String × Json)) (n : String) (t : ℚ) :
    loadConfig fs baseDir raw = Except.error (ConfigError.rangeError n t) ↔
      (firstPathError fs baseDir raw = none ∧
       ∃ t1 t2 t3,
         thresholdVal raw "yolo_threshold" DEFAULT_YOLO_THRESHOLD = some t1 ∧
         thresholdVal raw "hand_detection_threshold"
           DEFAULT_HAND_DETECTION_THRESHOLD = some t2 ∧
         thresholdVal raw "hands_nms_threshold" DEFAULT_HANDS_NMS_THRESHOLD =
           some t3 ∧
         ((¬ (0 ≤ t1 ∧ t1 ≤ 1) ∧ n = "yolo_threshold" ∧ t = t1) ∨
          ((0 ≤ t1 ∧ t1 ≤ 1) ∧ ¬ (0 ≤ t2 ∧ t2 ≤ 1) ∧
            n = "hand_detection_threshold" ∧ t = t2) ∨
          ((0 ≤ t1 ∧ t1 ≤ 1) ∧ (0 ≤ t2 ∧ t2 ≤ 1) ∧ ¬ (0 ≤ t3 ∧ t3 ≤ 1) ∧
            n = "hands_nms_threshold" ∧ t = t3))) := by
  constructor
  · intro h
    unfold loadConfig at h
    repeat' split at h
    all_goals try exact Except.noConfusion h
    all_goals injection h with h
    all_goals simp_all [checkPathField_err_iff, coerceFloatE_err_iff,
      checkRange_ok_iff, checkRange_err_iff, checkInputSize_err_iff,
      requireKey_err_iff, coerceFloatE_ok_iff, thresholdVal,
      firstPathError, pathKeys, firstErr]
  · rintro ⟨hp, t1, t2, t3, h1, h2, h3, hcase⟩
    obtain ⟨p1, p2, p3, p4, p5, k1, k2, k3, k4, k5⟩ :=
      firstPathError_none_ex fs baseDir raw hp
    have c1 : coerceFloatE (getD raw "yolo_threshold"
        (Json.num DEFAULT_YOLO_THRESHOLD)) "yolo_threshold" = Except.ok t1 :=
      (coerceFloatE_ok_iff _ _ _).mpr h1
    have c2 : coerceFloatE (getD raw "hand_detection_threshold"
        (Json.num DEFAULT_HAND_DETECTION_THRESHOLD))
        "hand_detection_threshold" = Except.ok t2 :=
      (coerceFloatE_ok_iff _ _ _).mpr h2
    have c3 : coerceFloatE (getD raw "hands_nms_threshold"
        (Json.num DEFAULT_HANDS_NMS_THRESHOLD)) "hands_nms_threshold" =
        Except.ok t3 :=
      (coerceFloatE_ok_iff _ _ _).mpr h3
    unfold loadConfig
    rcases hcase with ⟨ho, hn, ht⟩ | ⟨hi1, ho, hn, ht⟩ | ⟨hi1, hi2, ho, hn, ht⟩
    · subst hn; subst ht
      simp only [k1, k2, k3, k4, k5, c1, c2, c3,
        (checkRange_err_iff "yolo_threshold" t
          (ConfigError.rangeError "yolo_threshold" t)).mpr ⟨ho, rfl⟩]
    · subst hn; subst ht
      simp only [k1, k2, k3, k4, k5, c1, c2, c3,
        (checkRange_ok_iff "yolo_threshold" t1 ()).mpr hi1,
        (checkRange_err_iff "hand_detection_threshold" t
          (ConfigError.rangeError "hand_detection_threshold" t)).mpr ⟨ho, rfl⟩]
    · subst hn; subst ht
      simp only [k1, k2, k3, k4, k5, c1, c2, c3,
        (checkRange_ok_iff "yolo_threshold" t1 ()).mpr hi1,
        (checkRange_ok_iff "hand_detection_threshold" t2 ()).mpr hi2,
        (checkRange_err_iff "hands_nms_threshold" t
          (ConfigError.rangeError "hands_nms_threshold" t)).mpr ⟨ho, rfl⟩]

/-- When the five required-path checks all pass, any failure of
`_load_config` concerns a non-path field. -/
theorem loadConfig_err_nonpath (fs : List String) (baseDir : String)
    (raw : List (String × Json)) (e : ConfigError)
    (hp : firstPathError fs baseDir raw = none)
    (h : loadConfig fs baseDir raw = Except.error e) :
    isPathStageError e = false := by
  obtain ⟨p1, p2, p3, p4, p5, k1, k2, k3, k4, k5⟩ :=
    firstPathError_none_ex fs baseDir raw hp
  unfold loadConfig at h
  simp only [k1, k2, k3, k4, k5] at h
  repeat' split at h
  all_goals try exact Except.noConfusion h
  all_goals injection h with h
  all_goals subst h
  all_goals simp_all [coerceFloatE_err_iff, checkRange_err_iff,
    checkInputSize_err_iff, requireKey_err_iff, isPathStageError, pathKeys]

/-- Any `PathNotFoundError`-class failure of `_load_config` carries the key
whose string value resolved to the nonexistent path, and that resolved
path. -/
theorem loadConfig_pathNotFound_inv (fs : List String) (baseDir : String)
    (raw : List (String × Json)) (k p : String)
    (h : loadConfig fs baseDir raw =
      Except.error (ConfigError.pathNotFound k p)) :
    ∃ s, jsonLookup raw k = some (Json.str s) ∧
      p = resolvedPathOf baseDir s ∧ fs.contains p = false := by
  unfold loadConfig at h
  repeat' split at h
  all_goals try exact Except.noConfusion h
  all_goals injection h with h
  all_goals try subst h
  all_goals simp_all [checkPathField_err_iff, coerceFloatE_err_iff,
    checkRange_err_iff, checkInputSize_err_iff, requireKey_err_iff]
  all_goals
    rename_i hex
  all_goals
    obtain ⟨s, hl, hnc, hk2, hp2⟩ := hex
  all_goals subst hk2
  all_goals subst hp2
  all_goals exact ⟨s, hl, rfl, hnc⟩

/-- When the path and threshold stages pass and the `yolo_input_size` value
fails the shape/element checks, `_load_config` reports the
`TypeError`-class failure naming `yolo_input_size`. -/
theorem loadConfig_sizeError (fs : List String) (baseDir : String)
    (raw : List (String × Json)) (v : Json)
    (hp : firstPathError fs baseDir raw = none)
    (ht : thresholdStageOk raw)
    (hv : jsonLookup raw "yolo_input_size" = some v)
    (hcs : checkInputSize v =
      Except.error (ConfigError.typeError "yolo_input_size")) :
    loadConfig fs baseDir raw =
      Except.error (ConfigError.typeError "yolo_input_size") := by
  obtain ⟨p1, p2, p3, p4, p5, k1, k2, k3, k4, k5⟩ :=
    firstPathError_none_ex fs baseDir raw hp
  obtain ⟨t1, t2, t3, h1, hr1, h2, hr2, h3, hr3⟩ := ht
  unfold loadConfig
  simp only [k1, k2, k3, k4, k5,
    (coerceFloatE_ok_iff (getD raw "yolo_threshold"
      (Json.num DEFAULT_YOLO_THRESHOLD)) "yolo_threshold" t1).mpr h1,
    (coerceFloatE_ok_iff (getD raw "hand_detection_threshold"
      (Json.num DEFAULT_HAND_DETECTION_THRESHOLD))
      "hand_detection_threshold" t2).mpr h2,
    (coerceFloatE_ok_iff (getD raw "hands_nms_threshold"
      (Json.num DEFAULT_HANDS_NMS_THRESHOLD)) "hands_nms_threshold" t3).mpr h3,
    (checkRange_ok_iff "yolo_threshold" t1 ()).mpr hr1,
    (checkRange_ok_iff "hand_detection_threshold" t2 ()).mpr hr2,
    (checkRange_ok_iff "hands_nms_threshold" t3 ()).mpr hr3,
    (requireKey_ok_iff raw "yolo_input_size" v).mpr hv, hcs]

/-- A successful load of a two-number `yolo_input_size` stores the pair of
truncations toward zero, as Python `int()` does. -/
theorem loadConfig_size_num (fs : List String) (baseDir : String)
    (raw : List (String × Json)) (c : Configuration) (q1 q2 : ℚ)
    (hv : jsonLookup raw "yolo_input_size" =
      some (Json.arr [Json.num q1, Json.num q2]))
    (h : loadConfig fs baseDir raw = Except.ok c) :
    c.yolo_input_size = (ratTrunc q1, ratTrunc q2) := by
  obtain ⟨-, -, -, -, -, -, -, -, -, -, -, ⟨sizeRaw, hs, hcs⟩, -, -, -⟩ :=
    loadConfig_ok_fields fs baseDir raw c h
  rw [hv] at hs
  injection hs with hs
  subst hs
  simp [checkInputSize, coerceInt] at hcs
  exact hcs.symm

/-- A successfully validated model-path field whose raw value is the string
`s` stores exactly the resolution of `s`. -/
theorem pathField_resolved (fs : List String) (baseDir : String)
    (raw : List (String × Json)) (key p s : String)
    (hk : checkPathField fs baseDir raw key = Except.ok p)
    (hs : jsonLookup raw key = some (Json.str s)) :
    p = resolvedPathOf baseDir s := by
  obtain ⟨t, hl, hp, -⟩ := checkPathField_ok_char fs baseDir raw key p hk
  rw [hs] at hl
  injection hl with hl
  injection hl with hl
  subst hl
  exact hp

/-- Claim C1: the five required model-path keys are validated first, in the
fixed order yolo_onnx_path, classifier_model_path, embedder_model_path,
hand_landmark_model_path, hand_detection_model_path, before any threshold,
size, source, fps or count field is checked: the first failing path check in
that order is exactly the reported error, and any reported error concerning a
non-path field can only occur when all five path checks pass. -/
theorem claim_C1_path_order (fs : List String) (baseDir : String)
    (raw : List (String × Json)) :
    (∀ e, firstPathError fs baseDir raw = some e →
      loadConfig fs baseDir raw = Except.error e) ∧
    (firstPathError fs baseDir raw = none →
      ∀ e, loadConfig fs baseDir raw = Except.error e →
        isPathStageError e = false) :=
  ⟨fun e h => firstPathError_some_load fs baseDir raw e h,
   fun hp e h => loadConfig_err_nonpath fs baseDir raw e hp h⟩

theorem claim_C1_witness :
    loadConfig fs0 "/a" rawNoClassifier =
      Except.error (ConfigError.missingKey "classifier_model_path") :=
  (claim_C1_path_order fs0 "/a" rawNoClassifier).1
    (ConfigError.missingKey "classifier_model_path") rfl

/-- Claim C2: the six configuration-loading failure classes (config file
missing, invalid JSON, required key absent, wrong value type, resolved path
nonexistent, numeric field outside [0,1]) reach the caller as six distinct
identifiable errors, none swallowed: six concrete loads, one per class, each
returning its error, and the six errors are pairwise distinct. -/
theorem claim_C2_error_taxonomy :
    load [] "/a/cfg.json" (ParseOutcome.parsed raw0) =
      Except.error (ConfigError.notFound "/a/cfg.json") ∧
    load fs1 "/a/cfg.json" (ParseOutcome.invalid "Expecting value") =
      Except.error (ConfigError.parseError "Expecting value") ∧
    load fs1 "/a/cfg.json" (ParseOutcome.parsed []) =
      Except.error (ConfigError.missingKey "yolo_onnx_path") ∧
    load fs1 "/a/cfg.json"
        (ParseOutcome.parsed [("yolo_onnx_path", Json.num 3)]) =
      Except.error (ConfigError.typeError "yolo_onnx_path") ∧
    load fs1 "/a/cfg.json"
        (ParseOutcome.parsed [("yolo_onnx_path", Json.str "m2")]) =
      Except.error (ConfigError.pathNotFound "yolo_onnx_path" "/a/m2") ∧
    load fs0 "/a/cfg.json" (ParseOutcome.parsed rawBigThreshold) =
      Except.error (ConfigError.rangeError "yolo_threshold" 2) ∧
    [ConfigError.notFound "/a/cfg.json",
     ConfigError.parseError "Expecting value",
     ConfigError.missingKey "yolo_onnx_path",
     ConfigError.typeError "yolo_onnx_path",
     ConfigError.pathNotFound "yolo_onnx_path" "/a/m2",
     ConfigError.rangeError "yolo_threshold" 2].Nodup := by
  refine ⟨rfl, rfl, rfl, rfl, rfl, rfl, ?_⟩
  decide

/-- Claim C3: when every optional threshold key is omitted, a successful load
yields the documented defaults 0.5, 0.5 and 0.3 for yolo_threshold,
hand_detection_threshold and hands_nms_threshold. -/
theorem claim_C3_defaults (fs : List String) (baseDir : String)
    (raw : List (String × Json)) (c : Configuration)
    (h1 : jsonLookup raw "yolo_threshold" = none)
    (h2 : jsonLookup raw "hand_detection_threshold" = none)
    (h3 : jsonLookup raw "hands_nms_threshold" = none)
    (h : loadConfig fs baseDir raw = Except.ok c) :
    c.yolo_threshold = 1/2 ∧ c.hand_detection_threshold = 1/2 ∧
      c.hands_nms_threshold = 3/10 := by
  have F := loadConfig_ok_fields fs baseDir raw c h
  have e1 := F.2.2.2.2.2.1
  have e2 := F.2.2.2.2.2.2.1
  have e3 := F.2.2.2.2.2.2.2.1
  simp only [thresholdVal, getD, h1, Option.getD, coerceFloat] at e1
  simp only [thresholdVal, getD, h2, Option.getD, coerceFloat] at e2
  simp only [thresholdVal, getD, h3, Option.getD, coerceFloat] at e3
  injection e1 with e1
  injection e2 with e2
  injection e3 with e3
  refine ⟨e1 ▸ ?_, e2 ▸ ?_, e3 ▸ ?_⟩
  · norm_num [DEFAULT_YOLO_THRESHOLD, mkRat, Rat.normalize]
  · norm_num [DEFAULT_HAND_DETECTION_THRESHOLD, mkRat, Rat.normalize]
  · norm_num [DEFAULT_HANDS_NMS_THRESHOLD, mkRat, Rat.normalize]

theorem claim_C3_witness :
    loadConfig fs0 "/a" raw0 = Except.ok cfg0 ∧
    cfg0.yolo_threshold = 1/2 ∧ cfg0.hand_detection_threshold = 1/2 ∧
      cfg0.hands_nms_threshold = 3/10 :=
  ⟨rfl, claim_C3_defaults fs0 "/a" raw0 cfg0 rfl rfl rfl rfl⟩

/-- Claim C4: with the path stage passing and the three thresholds coerced to
t1, t2, t3, a value outside [0,1] makes the load fail with the
RangeError-class failure naming that field and carrying the offending value
(the first violated field in check order is reported), and any reported
RangeError names an out-of-range field and carries exactly its value — so no
in-range threshold is ever blamed. -/
theorem claim_C4_threshold_range (fs : List String) (baseDir : String)
    (raw : List (String × Json)) (t1 t2 t3 : ℚ)
    (hp : firstPathError fs baseDir raw = none)
    (h1 : thresholdVal raw "yolo_threshold" DEFAULT_YOLO_THRESHOLD = some t1)
    (h2 : thresholdVal raw "hand_detection_threshold"
      DEFAULT_HAND_DETECTION_THRESHOLD = some t2)
    (h3 : thresholdVal raw "hands_nms_threshold" DEFAULT_HANDS_NMS_THRESHOLD =
      some t3) :
    (¬ (0 ≤ t1 ∧ t1 ≤ 1) → loadConfig fs baseDir raw =
      Except.error (ConfigError.rangeError "yolo_threshold" t1)) ∧
    ((0 ≤ t1 ∧ t1 ≤ 1) → ¬ (0 ≤ t2 ∧ t2 ≤ 1) → loadConfig fs baseDir raw =
      Except.error (ConfigError.rangeError "hand_detection_threshold" t2)) ∧
    ((0 ≤ t1 ∧ t1 ≤ 1) → (0 ≤ t2 ∧ t2 ≤ 1) → ¬ (0 ≤ t3 ∧ t3 ≤ 1) →
      loadConfig fs baseDir raw =
        Except.error (ConfigError.rangeError "hands_nms_threshold" t3)) ∧
    (∀ n u, loadConfig fs baseDir raw =
        Except.error (ConfigError.rangeError n u) →
      ((n = "yolo_threshold" → ¬ (0 ≤ t1 ∧ t1 ≤ 1) ∧ u = t1) ∧
       (n = "hand_detection_threshold" → ¬ (0 ≤ t2 ∧ t2 ≤ 1) ∧ u = t2) ∧
       (n = "hands_nms_threshold" → ¬ (0 ≤ t3 ∧ t3 ≤ 1) ∧ u = t3))) := by
  refine ⟨?_, ?_, ?_, ?_⟩
  · intro ho
    exact (loadConfig_rangeError_iff fs baseDir raw "yolo_threshold" t1).mpr
      ⟨hp, t1, t2, t3, h1, h2, h3, Or.inl ⟨ho, rfl, rfl⟩⟩
  · intro hi1 ho
    exact (loadConfig_rangeError_iff fs baseDir raw
        "hand_detection_threshold" t2).mpr
      ⟨hp, t1, t2, t3, h1, h2, h3, Or.inr (Or.inl ⟨hi1, ho, rfl, rfl⟩)⟩
  · intro hi1 hi2 ho
    exact (loadConfig_rangeError_iff fs baseDir raw
        "hands_nms_threshold" t3).mpr
      ⟨hp, t1, t2, t3, h1, h2, h3, Or.inr (Or.inr ⟨hi1, hi2, ho, rfl, rfl⟩)⟩
  · intro n u hl
    obtain ⟨-, t1a, t2a, t3a, h1a, h2a, h3a, hc⟩ :=
      (loadConfig_rangeError_iff fs baseDir raw n u).mp hl
    rw [h1] at h1a
    rw [h2] at h2a
    rw [h3] at h3a
    injection h1a with h1a
    injection h2a with h2a
    injection h3a with h3a
    subst h1a
    subst h2a
    subst h3a
    refine ⟨fun hn => ?_, fun hn => ?_, fun hn => ?_⟩ <;> subst hn <;>
      rcases hc with ⟨ho, hn2, hu⟩ | ⟨hx, ho, hn2, hu⟩ | ⟨hx, hy, ho, hn2, hu⟩ <;>
      simp_all

theorem claim_C4_witness :
    loadConfig fs0 "/a" rawBigThreshold =
      Except.error (ConfigError.rangeError "yolo_threshold" 2) :=
  (claim_C4_threshold_range fs0 "/a" rawBigThreshold 2 (mkRat 1 2)
      (mkRat 3 10) rfl rfl rfl rfl).1 (by decide)

/-- Claim C5: a successful load resolves every relative model-path value
against the config file directory (joined and normalised) and uses every
absolute value unchanged; in particular /a/b joined with models/y.onnx is
/a/b/models/y.onnx. -/
theorem claim_C5_path_resolution (fs : List String) (baseDir : String)
    (raw : List (String × Json)) (c : Configuration)
    (h : loadConfig fs baseDir raw = Except.ok c) :
    (∀ s, jsonLookup raw "yolo_onnx_path" = some (Json.str s) →
      (isAbsolute s = true → c.yolo_onnx_path = s) ∧
      (isAbsolute s = false → c.yolo_onnx_path = joinResolve baseDir s)) ∧
    (∀ s, jsonLookup raw "classifier_model_path" = some (Json.str s) →
      (isAbsolute s = true → c.classifier_model_path = s) ∧
      (isAbsolute s = false →
        c.classifier_model_path = joinResolve baseDir s)) ∧
    (∀ s, jsonLookup raw "embedder_model_path" = some (Json.str s) →
      (isAbsolute s = true → c.embedder_model_path = s) ∧
      (isAbsolute s = false → c.embedder_model_path = joinResolve baseDir s)) ∧
    (∀ s, jsonLookup raw "hand_landmark_model_path" = some (Json.str s) →
      (isAbsolute s = true → c.hand_landmark_model_path = s) ∧
      (isAbsolute s = false →
        c.hand_landmark_model_path = joinResolve baseDir s)) ∧
    (∀ s, jsonLookup raw "hand_detection_model_path" = some (Json.str s) →
      (isAbsolute s = true → c.hand_detection_model_path = s) ∧
      (isAbsolute s = false →
        c.hand_detection_model_path = joinResolve baseDir s)) ∧
    joinResolve "/a/b" "models/y.onnx" = "/a/b/models/y.onnx" := by
  have F := loadConfig_ok_fields fs baseDir raw c h
  refine ⟨?_, ?_, ?_, ?_, ?_, by decide⟩
  · intro s hs
    have hr := pathField_resolved fs baseDir raw "yolo_onnx_path"
      c.yolo_onnx_path s F.1 hs
    unfold resolvedPathOf at hr
    constructor <;> intro ha <;> rw [ha] at hr <;> simpa using hr
  · intro s hs
    have hr := pathField_resolved fs baseDir raw "classifier_model_path"
      c.classifier_model_path s F.2.1 hs
    unfold resolvedPathOf at hr
    constructor <;> intro ha <;> rw [ha] at hr <;> simpa using hr
  · intro s hs
    have hr := pathField_resolved fs baseDir raw "embedder_model_path"
      c.embedder_model_path s F.2.2.1 hs
    unfold resolvedPathOf at hr
    constructor <;> intro ha <;> rw [ha] at hr <;> simpa using hr
  · intro s hs
    have hr := pathField_resolved fs baseDir raw "hand_landmark_model_path"
      c.hand_landmark_model_path s F.2.2.2.1 hs
    unfold resolvedPathOf at hr
    constructor <;> intro ha <;> rw [ha] at hr <;> simpa using hr
  · intro s hs
    have hr := pathField_resolved fs baseDir raw "hand_detection_model_path"
      c.hand_detection_model_path s F.2.2.2.2.1 hs
    unfold resolvedPathOf at hr
    constructor <;> intro ha <;> rw [ha] at hr <;> simpa using hr

theorem claim_C5_witness :
    cfg0.yolo_onnx_path = joinResolve "/a" "m1" ∧
      cfg0.embedder_model_path = "/a/m3" :=
  ⟨((claim_C5_path_resolution fs0 "/a" raw0 cfg0 rfl).1 "m1" rfl).2 rfl,
   ((claim_C5_path_resolution fs0 "/a" raw0 cfg0 rfl).2.2.1 "/a/m3" rfl).1 rfl⟩

/-- Claim C6: when a model-path key is the first violated constraint because
its resolved path does not exist, the load fails with the
PathNotFoundError-class failure; and any such failure carries exactly the key
name and that key resolved path (which indeed does not exist). -/
theorem claim_C6_path_not_found (fs : List String) (baseDir : String)
    (raw : List (String × Json)) :
    (∀ k p, firstPathError fs baseDir raw =
        some (ConfigError.pathNotFound k p) →
      loadConfig fs baseDir raw =
        Except.error (ConfigError.pathNotFound k p)) ∧
    (∀ k p, loadConfig fs baseDir raw =
        Except.error (ConfigError.pathNotFound k p) →
      ∃ s, jsonLookup raw k = some (Json.str s) ∧
        p = resolvedPathOf baseDir s ∧ fs.contains p = false) :=
  ⟨fun _ _ h => firstPathError_some_load fs baseDir raw _ h,
   fun k p h => loadConfig_pathNotFound_inv fs baseDir raw k p h⟩

theorem claim_C6_witness :
    loadConfig fs0 "/a" rawBadPath =
      Except.error (ConfigError.pathNotFound "yolo_onnx_path" "/a/m9") :=
  (claim_C6_path_not_found fs0 "/a" rawBadPath).1 "yolo_onnx_path" "/a/m9" rfl

/-- Claim C7: a successful load of yolo_input_size [640, 480] stores the
ordered pair (640, 480); with path and threshold stages passing, a one-element
list such as [640], or a list of non-integer strings such as ["a","b"], makes
the load fail with the TypeError-class failure naming yolo_input_size. -/
theorem claim_C7_input_size (fs : List String) (baseDir : String)
    (raw : List (String × Json)) :
    (∀ c, jsonLookup raw "yolo_input_size" =
        some (Json.arr [Json.num 640, Json.num 480]) →
      loadConfig fs baseDir raw = Except.ok c →
      c.yolo_input_size = (640, 480)) ∧
    (firstPathError fs baseDir raw = none → thresholdStageOk raw →
      ∀ v, jsonLookup raw "yolo_input_size" = some v →
        (v = Json.arr [Json.num 640] ∨
          v = Json.arr [Json.str "a", Json.str "b"]) →
        loadConfig fs baseDir raw =
          Except.error (ConfigError.typeError "yolo_input_size")) := by
  constructor
  · intro c hv h
    rw [loadConfig_size_num fs baseDir raw c 640 480 hv h]
    decide
  · intro hp ht v hv hshape
    rcases hshape with hsh | hsh <;> subst hsh <;>
      exact loadConfig_sizeError fs baseDir raw _ hp ht hv rfl

theorem claim_C7_witness :
    cfg0.yolo_input_size = (640, 480) ∧
    loadConfig fs0 "/a" rawShortSize =
      Except.error (ConfigError.typeError "yolo_input_size") ∧
    loadConfig fs0 "/a" rawStrSize =
      Except.error (ConfigError.typeError "yolo_input_size") :=
  ⟨(claim_C7_input_size fs0 "/a" raw0).1 cfg0 rfl rfl,
   (claim_C7_input_size fs0 "/a" rawShortSize).2 rfl
     ⟨mkRat 1 2, mkRat 1 2, mkRat 3 10, rfl, by decide, rfl, by decide, rfl,
       by decide⟩
     (Json.arr [Json.num 640]) rfl (Or.inl rfl),
   (claim_C7_input_size fs0 "/a" rawStrSize).2 rfl
     ⟨mkRat 1 2, mkRat 1 2, mkRat 3 10, rfl, by decide, rfl, by decide, rfl,
       by decide⟩
     (Json.arr [Json.str "a", Json.str "b"]) rfl (Or.inr rfl)⟩

/-- Claim C8: loading is deterministic in its input — two loads of the same
file contents against the same file system produce structurally equal
Configuration records. -/
theorem claim_C8_deterministic (fs : List String) (configPath : String)
    (parsed : ParseOutcome) (c1 c2 : Configuration)
    (h1 : load fs configPath parsed = Except.ok c1)
    (h2 : load fs configPath parsed = Except.ok c2) : c1 = c2 := by
  rw [h1] at h2
  injection h2

theorem claim_C8_witness : cfg0 = cfg0 :=
  claim_C8_deterministic fs0 "/a/cfg.json" (ParseOutcome.parsed raw0)
    cfg0 cfg0 rfl rfl

/-- Claim C9: VideoCapture.close is idempotent and safe in every state —
closing twice equals closing once, closing before open was ever called leaves
the initial state untouched (and raises nothing, the operation being total),
closing after a failed or successful open is likewise idempotent, and closing
an assigned capture marks the underlying handle released. -/
theorem claim_C9_close_idempotent (v : VideoCapture) (b : Bool) (c : Cv2Cap) :
    VideoCapture.close (VideoCapture.close v) = VideoCapture.close v ∧
    VideoCapture.close VideoCapture.initState = VideoCapture.initState ∧
    VideoCapture.close
        (VideoCapture.close (VideoCapture.openCap VideoCapture.initState b).1) =
      VideoCapture.close (VideoCapture.openCap VideoCapture.initState b).1 ∧
    (VideoCapture.close { cap := some c }).cap =
      some { opened := c.opened, released := true } := by
  obtain ⟨_ | d⟩ := v <;>
    simp [VideoCapture.close, cv2Release, VideoCapture.initState,
      VideoCapture.openCap]

/-- Claim C10 (implicit): a yolo_input_size whose two elements are
non-integer numbers does not fail the load; each element is truncated toward
zero, so [640.9, 480.2] yields (640, 480). -/
theorem claim_C10_truncation (fs : List String) (baseDir : String)
    (raw : List (String × Json)) (q1 q2 : ℚ) (c : Configuration)
    (hv : jsonLookup raw "yolo_input_size" =
      some (Json.arr [Json.num q1, Json.num q2]))
    (h : loadConfig fs baseDir raw = Except.ok c) :
    c.yolo_input_size = (ratTrunc q1, ratTrunc q2) :=
  loadConfig_size_num fs baseDir raw c q1 q2 hv h

theorem claim_C10_witness :
    loadConfig fs0 "/a" rawFracSize = Except.ok cfg0 ∧
      cfg0.yolo_input_size = (640, 480) :=
  ⟨rfl, by
    rw [claim_C10_truncation fs0 "/a" rawFracSize (mkRat 6409 10)
      (mkRat 2401 5) cfg0 rfl rfl]
    decide⟩

end HumanHandDetect
